import Mathlib

/-!
Verification of the client-side routing layer of a distributed key-value
store (`kv/db.go`).  The Go source is shallowly embedded: keys are byte
sequences (`List Nat`), fallible operations return `Except`, the goroutine
spawned by `sendRPC` is embedded as a pure function from the results of its
two external interactions (node resolution and the remote call) to a trace
recording the values sent on the returned channel, the final state of the
request and reply values, and counters for the external effects performed
(resolution attempts, remote calls, cache evictions).  A channel returned to
a caller is modelled as `Option (List _)`: `none` is the Go nil channel (a
receive on it blocks forever), `some l` is a channel on which exactly the
values of `l` are delivered, in order.
-/

set_option autoImplicit false

namespace KV

/-- `storage.Key`: an ordered byte sequence. -/
abbrev GoKey := List Nat

/-- A stored value (byte sequence). -/
abbrev GoValue := List Nat

/-- `rpc.Client`: the RPC client for a node, modelled by the node address it
is connected to (the transport itself is an external collaborator). -/
abbrev RpcClient := Nat

/-- A Go `error` value.  `errorf msg` models `util.Errorf(msg)`.  The
`staleRoute` constructor carries the stale-routing classification the spec
calls `StaleRouteError` (the contacted node does not own the key or the
range boundaries changed); the source never constructs or inspects this
classification, but the retry claims of the spec quantify over it. -/
inductive GoError where
  | errorf (msg : String)
  | staleRoute (msg : String)
  deriving DecidableEq

/-- Modelled from the spec: a Range Descriptor, `{start key (inclusive),
end key (exclusive), owning node address}` (the `storage` package holding
the concrete struct is not under src/; the replica set plays no role in any
claim and is omitted). -/
structure RangeDescriptor where
  startKey : GoKey
  endKey : GoKey
  node : RpcClient
  deriving DecidableEq

/-- Lexicographic strict order on byte-sequence keys (Go `bytes.Compare`). -/
def keyLt : GoKey → GoKey → Bool
  | [], [] => false
  | [], _ :: _ => true
  | _ :: _, [] => false
  | a :: as, b :: bs =>
      if a < b then true else if b < a then false else keyLt as bs

/-- `a ≤ b` on keys, derived from the strict order. -/
def keyLe (a b : GoKey) : Bool :=
  !keyLt b a

/-- Whether `key` lies in the half-open interval `[startKey, endKey)` of a
range descriptor. -/
def RangeDescriptor.containsKey (d : RangeDescriptor) (k : GoKey) : Bool :=
  keyLe d.startKey k && keyLt k d.endKey

/-- Modelled from the spec: the Range Cache (`util.LRUCache`, not under
src/), a map from the start key of a range to its descriptor; modelled as a list
of descriptors (entry order standing in for recency, which no claim uses). -/
abbrev RangeCache := List RangeDescriptor

/-- Modelled from the spec: looking up the cache entry whose `[start, end)`
interval contains `key`. -/
def rangeCacheLookup (c : RangeCache) (k : GoKey) : Option RangeDescriptor :=
  c.find? (fun d => d.containsKey k)

/-- `DistDB`: the distributed key-value store client.  `gossip` is an opaque
handle to the external gossip instance; `rangeCache` caches replica metadata
for key ranges. -/
structure DistDB where
  gossip : Nat
  rangeCache : RangeCache

/-- `DistDB.getNode`, verbatim from the source: the body is
`return nil, util.Errorf("getNode unimplemented")` — it unconditionally
fails, consulting neither the range cache nor the bi-level range metadata
its own doc comment describes. -/
def DistDB.getNode (_db : DistDB) (_key : GoKey) : Except GoError RpcClient :=
  .error (.errorf "getNode unimplemented")

/-- A typed RPC reply value: every `storage.*Response` struct consists of
operation-specific result fields plus a mandatory `Error` field, which is
exactly what `sendRPC` accesses reflectively via `FieldByName("Error")`. -/
structure Reply (φ : Type) where
  fields : φ
  Error : Option GoError
  deriving DecidableEq

/-- `reflect.Indirect(replyVal).FieldByName("Error").Set(reflect.ValueOf(err))`:
populate the `Error` field of a reply, leaving every other field unchanged. -/
def Reply.setErr {φ : Type} (e : GoError) (r : Reply φ) : Reply φ :=
  { r with Error := some e }

/-- The observable trace of one `sendRPC` background task: the values sent on
the channel the caller received, the final state of the request and reply
values, counters for each external interaction performed (calls to
`getNode`, remote calls, range-cache evictions) and the final range cache. -/
structure RPCTrace (α φ : Type) where
  sent : List (Reply φ)
  finalArgs : α
  finalReply : Reply φ
  getNodeCalls : Nat
  remoteCalls : Nat
  evictions : Nat
  finalCache : RangeCache
  deriving DecidableEq

/-- The goroutine body of `sendRPC`, embedded as a function of its two
external interactions.  `resolver` stands for `db.getNode` and `call` for
`node.Call(method, args, reply)` (the wire transport, an external
collaborator; on success it yields the filled-in reply, on failure the
pre-allocated reply is untouched and an error is returned).  The body is a
faithful translation of:

    replyVal := reflect.ValueOf(reply)
    node, err := db.getNode(key)
    if err == nil { err = node.Call(method, args, reply) }
    if err != nil { reply.Error = err }   // via reflection
    chanVal.Send(replyVal)

There is no branch on the classification of the error, no cache eviction and no
retry: the TODO in the source leaves those unimplemented. -/
def sendRPCWith {α φ : Type}
    (resolver : GoKey → Except GoError RpcClient)
    (call : RpcClient → String → α → Reply φ → Except GoError (Reply φ))
    (cache : RangeCache)
    (key : GoKey) (method : String) (args : α) (reply : Reply φ) :
    RPCTrace α φ :=
  match resolver key with
  | .error e =>
      { sent := [reply.setErr e], finalArgs := args, finalReply := reply.setErr e,
        getNodeCalls := 1, remoteCalls := 0, evictions := 0, finalCache := cache }
  | .ok node =>
      match call node method args reply with
      | .ok filled =>
          { sent := [filled], finalArgs := args, finalReply := filled,
            getNodeCalls := 1, remoteCalls := 1, evictions := 0, finalCache := cache }
      | .error e =>
          { sent := [reply.setErr e], finalArgs := args, finalReply := reply.setErr e,
            getNodeCalls := 1, remoteCalls := 1, evictions := 0, finalCache := cache }

/-- The value of the Go variable `err` after the resolution-then-call
sequence of the goroutine body: the resolution error if resolution failed,
otherwise the error of the remote call if the call failed, otherwise `none`. -/
def dispatchErr {α φ : Type}
    (resolver : GoKey → Except GoError RpcClient)
    (call : RpcClient → String → α → Reply φ → Except GoError (Reply φ))
    (key : GoKey) (method : String) (args : α) (reply : Reply φ) :
    Option GoError :=
  match resolver key with
  | .error e => some e
  | .ok node =>
      match call node method args reply with
      | .ok _ => none
      | .error e => some e

/-- `DistDB.sendRPC`: the dispatcher as the repository composes it, with
`DistDB.getNode` as the resolver, acting on the range cache of the
receiver. -/
def DistDB.sendRPC {α φ : Type} (db : DistDB)
    (call : RpcClient → String → α → Reply φ → Except GoError (Reply φ))
    (key : GoKey) (method : String) (args : α) (reply : Reply φ) :
    RPCTrace α φ :=
  sendRPCWith db.getNode call db.rangeCache key method args reply

/-! Request and response shapes.  The `storage` package holding the concrete
structs is not under src/; the shapes below are modelled from the interface
table of the spec (every response is operation-specific result fields plus the
mandatory error field, here `Reply φ`). -/

/-- Modelled from the spec: `storage.ContainsRequest {Key}`. -/
structure ContainsRequest where
  Key : GoKey
  deriving DecidableEq

/-- Modelled from the spec: result fields of `storage.ContainsResponse`. -/
structure ContainsFields where
  Exists : Bool
  deriving DecidableEq

/-- Modelled from the spec: `storage.GetRequest {Key}`. -/
structure GetRequest where
  Key : GoKey
  deriving DecidableEq

/-- Modelled from the spec: result fields of `storage.GetResponse`. -/
structure GetFields where
  Value : GoValue
  deriving DecidableEq

/-- Modelled from the spec: `storage.PutRequest {Key, Value}`. -/
structure PutRequest where
  Key : GoKey
  Value : GoValue
  deriving DecidableEq

/-- Modelled from the spec: `storage.PutResponse` has no result field beyond
the error. -/
structure PutFields where
  deriving DecidableEq

/-- Modelled from the spec: `storage.IncrementRequest {Key, Amount}`. -/
structure IncrementRequest where
  Key : GoKey
  Amount : Int
  deriving DecidableEq

/-- Modelled from the spec: result fields of `storage.IncrementResponse`. -/
structure IncrementFields where
  NewValue : Int
  deriving DecidableEq

/-- Modelled from the spec: `storage.DeleteRequest {Key}`. -/
structure DeleteRequest where
  Key : GoKey
  deriving DecidableEq

/-- Modelled from the spec: `storage.DeleteResponse` has no result field. -/
structure DeleteFields where
  deriving DecidableEq

/-- Modelled from the spec: `storage.DeleteRangeRequest {StartKey, EndKey}`. -/
structure DeleteRangeRequest where
  StartKey : GoKey
  EndKey : GoKey
  deriving DecidableEq

/-- Modelled from the spec: result fields of `storage.DeleteRangeResponse`. -/
structure DeleteRangeFields where
  NumDeleted : Int
  deriving DecidableEq

/-- Modelled from the spec: `storage.ScanRequest {StartKey, EndKey, MaxResults}`. -/
structure ScanRequest where
  StartKey : GoKey
  EndKey : GoKey
  MaxResults : Nat
  deriving DecidableEq

/-- Modelled from the spec: result fields of `storage.ScanResponse`. -/
structure ScanFields where
  Rows : List (GoKey × GoValue)
  deriving DecidableEq

/-- Modelled from the spec: `storage.EndTransactionRequest {Keys}`. -/
structure EndTransactionRequest where
  Keys : List GoKey
  deriving DecidableEq

/-- Modelled from the spec: result fields of `storage.EndTransactionResponse`. -/
structure EndTransactionFields where
  Committed : Bool
  deriving DecidableEq

/-- Modelled from the spec: `storage.AccumulateTSRequest {Key, Counts}`. -/
structure AccumulateTSRequest where
  Key : GoKey
  Counts : List Int
  deriving DecidableEq

/-- Modelled from the spec: `storage.AccumulateTSResponse` has no result
field. -/
structure AccumulateTSFields where
  deriving DecidableEq

/-- Modelled from the spec: `storage.ReapQueueRequest {Inbox, MaxResults}`. -/
structure ReapQueueRequest where
  Inbox : GoKey
  MaxResults : Nat
  deriving DecidableEq

/-- Modelled from the spec: result fields of `storage.ReapQueueResponse`. -/
structure ReapQueueFields where
  Messages : List GoValue
  deriving DecidableEq

/-- Modelled from the spec: `storage.EnqueueUpdateRequest` (the spec gives no
field table for this operation; no claim inspects its fields). -/
structure EnqueueUpdateRequest where
  deriving DecidableEq

/-- Modelled from the spec: `storage.EnqueueUpdateResponse` has no result
field. -/
structure EnqueueUpdateFields where
  deriving DecidableEq

/-- Modelled from the spec: `storage.EnqueueMessageRequest {Inbox, Message}`. -/
structure EnqueueMessageRequest where
  Inbox : GoKey
  Message : GoValue
  deriving DecidableEq

/-- Modelled from the spec: `storage.EnqueueMessageResponse` has no result
field. -/
structure EnqueueMessageFields where
  deriving DecidableEq

/-- The observable outcome of one façade entry point: the `sendRPC`
invocations it issued (routing key and remote method name, in order), and
the channel returned to the caller — `none` is the Go nil channel, on which a
receive blocks forever; `some l` delivers exactly the values of `l`. -/
structure FacadeResult (φ : Type) where
  dispatches : List (GoKey × String)
  chan : Option (List (Reply φ))
  deriving DecidableEq

/-- The shorthand used below: one `sendRPC` dispatch whose channel carries
exactly the values the background task sent. -/
def oneDispatch {α φ : Type} (db : DistDB)
    (call : RpcClient → String → α → Reply φ → Except GoError (Reply φ))
    (key : GoKey) (method : String) (args : α) (reply : Reply φ) :
    FacadeResult φ :=
  { dispatches := [(key, method)],
    chan := some (db.sendRPC call key method args reply).sent }

/-- `DistDB.Contains`: `db.sendRPC(args.Key, "Node.Contains", args, &ContainsResponse{})`. -/
def DistDB.Contains (db : DistDB)
    (call : RpcClient → String → ContainsRequest → Reply ContainsFields →
      Except GoError (Reply ContainsFields))
    (args : ContainsRequest) : FacadeResult ContainsFields :=
  oneDispatch db call args.Key "Node.Contains" args ⟨⟨false⟩, none⟩

/-- `DistDB.Get`: `db.sendRPC(args.Key, "Node.Get", args, &GetResponse{})`. -/
def DistDB.Get (db : DistDB)
    (call : RpcClient → String → GetRequest → Reply GetFields →
      Except GoError (Reply GetFields))
    (args : GetRequest) : FacadeResult GetFields :=
  oneDispatch db call args.Key "Node.Get" args ⟨⟨[]⟩, none⟩

/-- `DistDB.Put`: `db.sendRPC(args.Key, "Node.Put", args, &PutResponse{})`. -/
def DistDB.Put (db : DistDB)
    (call : RpcClient → String → PutRequest → Reply PutFields →
      Except GoError (Reply PutFields))
    (args : PutRequest) : FacadeResult PutFields :=
  oneDispatch db call args.Key "Node.Put" args ⟨⟨⟩, none⟩

/-- `DistDB.Increment`: `db.sendRPC(args.Key, "Node.Increment", args, &IncrementResponse{})`. -/
def DistDB.Increment (db : DistDB)
    (call : RpcClient → String → IncrementRequest → Reply IncrementFields →
      Except GoError (Reply IncrementFields))
    (args : IncrementRequest) : FacadeResult IncrementFields :=
  oneDispatch db call args.Key "Node.Increment" args ⟨⟨0⟩, none⟩

/-- `DistDB.Delete`: `db.sendRPC(args.Key, "Node.Delete", args, &DeleteResponse{})`. -/
def DistDB.Delete (db : DistDB)
    (call : RpcClient → String → DeleteRequest → Reply DeleteFields →
      Except GoError (Reply DeleteFields))
    (args : DeleteRequest) : FacadeResult DeleteFields :=
  oneDispatch db call args.Key "Node.Delete" args ⟨⟨⟩, none⟩

/-- `DistDB.DeleteRange`: `db.sendRPC(args.StartKey, "Node.DeleteRange",
args, &DeleteRangeResponse{})` — a single dispatch routed by the start key;
the partitioning over the spanned ranges is a TODO in the source. -/
def DistDB.DeleteRange (db : DistDB)
    (call : RpcClient → String → DeleteRangeRequest → Reply DeleteRangeFields →
      Except GoError (Reply DeleteRangeFields))
    (args : DeleteRangeRequest) : FacadeResult DeleteRangeFields :=
  oneDispatch db call args.StartKey "Node.DeleteRange" args ⟨⟨0⟩, none⟩

/-- `DistDB.Scan`: the body is `return nil` — a nil channel, no dispatch
(the range-spanning scan is a TODO in the source). -/
def DistDB.Scan (_db : DistDB) (_args : ScanRequest) : FacadeResult ScanFields :=
  { dispatches := [], chan := none }

/-- `DistDB.EndTransaction`: `db.sendRPC(args.Keys[0], "Node.EndTransaction",
args, &EndTransactionResponse{})` — a single dispatch routed by the first
key (multi-range commit is a TODO in the source).  `args.Keys[0]` panics on
an empty key slice, modelled by `none`. -/
def DistDB.EndTransaction (db : DistDB)
    (call : RpcClient → String → EndTransactionRequest → Reply EndTransactionFields →
      Except GoError (Reply EndTransactionFields))
    (args : EndTransactionRequest) : Option (FacadeResult EndTransactionFields) :=
  match args.Keys with
  | [] => none
  | k :: _ => some (oneDispatch db call k "Node.EndTransaction" args ⟨⟨false⟩, none⟩)

/-- `DistDB.AccumulateTS`: `db.sendRPC(args.Key, "Node.AccumulateTS", args,
&AccumulateTSResponse{})`. -/
def DistDB.AccumulateTS (db : DistDB)
    (call : RpcClient → String → AccumulateTSRequest → Reply AccumulateTSFields →
      Except GoError (Reply AccumulateTSFields))
    (args : AccumulateTSRequest) : FacadeResult AccumulateTSFields :=
  oneDispatch db call args.Key "Node.AccumulateTS" args ⟨⟨⟩, none⟩

/-- `DistDB.ReapQueue`: `db.sendRPC(args.Inbox, "Node.ReapQueue", args,
&ReapQueueResponse{})`. -/
def DistDB.ReapQueue (db : DistDB)
    (call : RpcClient → String → ReapQueueRequest → Reply ReapQueueFields →
      Except GoError (Reply ReapQueueFields))
    (args : ReapQueueRequest) : FacadeResult ReapQueueFields :=
  oneDispatch db call args.Inbox "Node.ReapQueue" args ⟨⟨[]⟩, none⟩

/-- `DistDB.EnqueueUpdate`: the body is `return nil` — a nil channel, no
dispatch (routing queued updates to system-reserved keys is a TODO in the
source). -/
def DistDB.EnqueueUpdate (_db : DistDB) (_args : EnqueueUpdateRequest) :
    FacadeResult EnqueueUpdateFields :=
  { dispatches := [], chan := none }

/-- `DistDB.EnqueueMessage`: `db.sendRPC(args.Inbox, "Node.EnqueueMessage",
args, &EnqueueMessageResponse{})`. -/
def DistDB.EnqueueMessage (db : DistDB)
    (call : RpcClient → String → EnqueueMessageRequest → Reply EnqueueMessageFields →
      Except GoError (Reply EnqueueMessageFields))
    (args : EnqueueMessageRequest) : FacadeResult EnqueueMessageFields :=
  oneDispatch db call args.Inbox "Node.EnqueueMessage" args ⟨⟨⟩, none⟩

/-- A façade outcome whose channel delivers exactly one value. -/
def deliversOnce {φ : Type} (fr : FacadeResult φ) : Prop :=
  fr.chan.map List.length = some 1

/-- Modelled from the spec: the number of ranges of the cache that the
half-open interval `[s, e)` intersects — the `N` of the minimal
partition of a multi-range operation. -/
def rangesSpanned (c : RangeCache) (s e : GoKey) : Nat :=
  (c.filter (fun d => keyLt d.startKey e && keyLt s d.endKey)).length

/-- Modelled from the spec: the number of distinct ranges of the cache
touched by a key set — the `D` of the deduplicate-by-range step of the spec for
`EndTransaction`. -/
def distinctRanges (c : RangeCache) (keys : List GoKey) : Nat :=
  ((keys.filterMap (rangeCacheLookup c)).map RangeDescriptor.startKey).dedup.length

/-- C1: every operation dispatched through `sendRPC` — Contains, Get, Put,
Increment, Delete, DeleteRange, EndTransaction (on a nonempty key slice),
AccumulateTS, ReapQueue and EnqueueMessage — returns a channel on which
exactly one response value is delivered; the first conjunct states it for the
dispatch mechanism under every resolver and remote-call outcome (success and
both failure cases), so delivery is exactly-once regardless of outcome, and
the task, a total function here, terminates after that single send. -/
theorem sendRPC_ops_deliver_exactly_once
    {α φ : Type}
    (resolver : GoKey → Except GoError RpcClient)
    (call0 : RpcClient → String → α → Reply φ → Except GoError (Reply φ))
    (cache : RangeCache) (key : GoKey) (method : String)
    (args0 : α) (reply0 : Reply φ)
    (db : DistDB)
    (cCo : RpcClient → String → ContainsRequest → Reply ContainsFields → Except GoError (Reply ContainsFields))
    (aCo : ContainsRequest)
    (cG : RpcClient → String → GetRequest → Reply GetFields → Except GoError (Reply GetFields))
    (aG : GetRequest)
    (cP : RpcClient → String → PutRequest → Reply PutFields → Except GoError (Reply PutFields))
    (aP : PutRequest)
    (cI : RpcClient → String → IncrementRequest → Reply IncrementFields → Except GoError (Reply IncrementFields))
    (aI : IncrementRequest)
    (cD : RpcClient → String → DeleteRequest → Reply DeleteFields → Except GoError (Reply DeleteFields))
    (aD : DeleteRequest)
    (cDR : RpcClient → String → DeleteRangeRequest → Reply DeleteRangeFields → Except GoError (Reply DeleteRangeFields))
    (aDR : DeleteRangeRequest)
    (cET : RpcClient → String → EndTransactionRequest → Reply EndTransactionFields → Except GoError (Reply EndTransactionFields))
    (aET : EndTransactionRequest)
    (cA : RpcClient → String → AccumulateTSRequest → Reply AccumulateTSFields → Except GoError (Reply AccumulateTSFields))
    (aA : AccumulateTSRequest)
    (cR : RpcClient → String → ReapQueueRequest → Reply ReapQueueFields → Except GoError (Reply ReapQueueFields))
    (aR : ReapQueueRequest)
    (cEM : RpcClient → String → EnqueueMessageRequest → Reply EnqueueMessageFields → Except GoError (Reply EnqueueMessageFields))
    (aEM : EnqueueMessageRequest)
    (hET : aET.Keys ≠ []) :
    (sendRPCWith resolver call0 cache key method args0 reply0).sent.length = 1 ∧
    deliversOnce (db.Contains cCo aCo) ∧
    deliversOnce (db.Get cG aG) ∧
    deliversOnce (db.Put cP aP) ∧
    deliversOnce (db.Increment cI aI) ∧
    deliversOnce (db.Delete cD aD) ∧
    deliversOnce (db.DeleteRange cDR aDR) ∧
    (∃ fr, db.EndTransaction cET aET = some fr ∧ deliversOnce fr) ∧
    deliversOnce (db.AccumulateTS cA aA) ∧
    deliversOnce (db.ReapQueue cR aR) ∧
    deliversOnce (db.EnqueueMessage cEM aEM) := by
  refine ⟨?_, rfl, rfl, rfl, rfl, rfl, rfl, ?_, rfl, rfl, rfl⟩
  · cases hres : resolver key with
    | error e => simp [sendRPCWith, hres]
    | ok node =>
      cases hcall : call0 node method args0 reply0 with
      | error e => simp [sendRPCWith, hres, hcall]
      | ok filled => simp [sendRPCWith, hres, hcall]
  · obtain ⟨keys⟩ := aET
    cases keys with
    | nil => exact absurd rfl hET
    | cons k rest => exact ⟨_, rfl, rfl⟩

/-- C1, witnessed at concrete inputs: every hypothesis of
`sendRPC_ops_deliver_exactly_once` discharged at explicit values. -/
theorem sendRPC_ops_deliver_exactly_once_witness :
    (sendRPCWith (fun _ => .ok 1)
        (fun _ _ (_ : GetRequest) (r : Reply GetFields) => .ok r)
        [] [1] "Node.Get" ⟨[1]⟩ ⟨⟨[]⟩, none⟩).sent.length = 1 ∧
    deliversOnce (DistDB.Contains ⟨0, []⟩ (fun _ _ _ r => .ok r) ⟨[2]⟩) ∧
    deliversOnce (DistDB.Get ⟨0, []⟩ (fun _ _ _ r => .ok r) ⟨[2]⟩) ∧
    deliversOnce (DistDB.Put ⟨0, []⟩ (fun _ _ _ r => .ok r) ⟨[2], [9]⟩) ∧
    deliversOnce (DistDB.Increment ⟨0, []⟩ (fun _ _ _ r => .ok r) ⟨[2], 1⟩) ∧
    deliversOnce (DistDB.Delete ⟨0, []⟩ (fun _ _ _ r => .ok r) ⟨[2]⟩) ∧
    deliversOnce (DistDB.DeleteRange ⟨0, []⟩ (fun _ _ _ r => .ok r) ⟨[2], [4]⟩) ∧
    (∃ fr, DistDB.EndTransaction ⟨0, []⟩ (fun _ _ _ r => .ok r) ⟨[[3]]⟩ = some fr ∧
      deliversOnce fr) ∧
    deliversOnce (DistDB.AccumulateTS ⟨0, []⟩ (fun _ _ _ r => .ok r) ⟨[2], [1]⟩) ∧
    deliversOnce (DistDB.ReapQueue ⟨0, []⟩ (fun _ _ _ r => .ok r) ⟨[2], 3⟩) ∧
    deliversOnce (DistDB.EnqueueMessage ⟨0, []⟩ (fun _ _ _ r => .ok r) ⟨[2], [5]⟩) :=
  sendRPC_ops_deliver_exactly_once (fun _ => .ok 1)
    (fun _ _ (_ : GetRequest) (r : Reply GetFields) => .ok r)
    [] [1] "Node.Get" ⟨[1]⟩ ⟨⟨[]⟩, none⟩ ⟨0, []⟩
    (fun _ _ _ r => .ok r) ⟨[2]⟩ (fun _ _ _ r => .ok r) ⟨[2]⟩
    (fun _ _ _ r => .ok r) ⟨[2], [9]⟩ (fun _ _ _ r => .ok r) ⟨[2], 1⟩
    (fun _ _ _ r => .ok r) ⟨[2]⟩ (fun _ _ _ r => .ok r) ⟨[2], [4]⟩
    (fun _ _ _ r => .ok r) ⟨[[3]]⟩ (fun _ _ _ r => .ok r) ⟨[2], [1]⟩
    (fun _ _ _ r => .ok r) ⟨[2], 3⟩ (fun _ _ _ r => .ok r) ⟨[2], [5]⟩
    (by decide)

/-- C2: every dispatch failure — node-resolution failure or remote-call
failure — is recorded by setting the Error field of the pre-allocated reply,
and that error-carrying reply is the one value delivered on the returned
channel: the error reaches the caller only as data (the embedded task is a
total function, so nothing is raised across the task boundary). -/
theorem dispatch_failure_delivered_as_error_data
    {α φ : Type}
    (resolver : GoKey → Except GoError RpcClient)
    (call : RpcClient → String → α → Reply φ → Except GoError (Reply φ))
    (cache : RangeCache) (key : GoKey) (method : String) (args : α)
    (reply : Reply φ) (e : GoError)
    (h : dispatchErr resolver call key method args reply = some e) :
    (sendRPCWith resolver call cache key method args reply).sent =
      [reply.setErr e] ∧
    (sendRPCWith resolver call cache key method args reply).finalReply.Error =
      some e := by
  unfold dispatchErr at h
  split at h
  · rename_i e1 heq
    simp only [Option.some.injEq] at h
    subst h
    simp [sendRPCWith, heq, Reply.setErr]
  · rename_i node heq
    split at h
    · simp at h
    · rename_i e1 heq2
      simp only [Option.some.injEq] at h
      subst h
      simp [sendRPCWith, heq, heq2, Reply.setErr]

/-- C2, witnessed: a concrete resolution failure is delivered as data in the
Error field of the single reply sent on the channel. -/
theorem dispatch_failure_delivered_as_error_data_witness :
    (sendRPCWith (fun _ => .error (.errorf "getNode unimplemented"))
        (fun _ _ (_ : GetRequest) (r : Reply GetFields) => .ok r)
        [] [7] "Node.Get" ⟨[7]⟩ ⟨⟨[]⟩, none⟩).sent =
      [Reply.setErr (.errorf "getNode unimplemented") ⟨⟨[]⟩, none⟩] ∧
    (sendRPCWith (fun _ => .error (.errorf "getNode unimplemented"))
        (fun _ _ (_ : GetRequest) (r : Reply GetFields) => .ok r)
        [] [7] "Node.Get" ⟨[7]⟩ ⟨⟨[]⟩, none⟩).finalReply.Error =
      some (.errorf "getNode unimplemented") :=
  dispatch_failure_delivered_as_error_data
    (fun _ => .error (.errorf "getNode unimplemented"))
    (fun _ _ (_ : GetRequest) (r : Reply GetFields) => .ok r)
    [] [7] "Node.Get" ⟨[7]⟩ ⟨⟨[]⟩, none⟩ (.errorf "getNode unimplemented")
    (by decide)

/-- C3 is false of the source: at a concrete input whose remote call fails
with the stale-routing classification, the dispatcher neither evicts a Range
Cache entry nor retries resolution — the trace records zero evictions and a
single resolution attempt, not one eviction and a second resolution. -/
theorem stale_route_no_retry_counterexample :
    ¬ ((sendRPCWith (fun _ => .ok 2)
          (fun _ _ (_ : GetRequest) (_ : Reply GetFields) =>
            .error (.staleRoute "range boundaries moved"))
          [⟨[0], [10], 2⟩] [5] "Node.Get" ⟨[5]⟩ ⟨⟨[]⟩, none⟩).evictions = 1 ∧
       (sendRPCWith (fun _ => .ok 2)
          (fun _ _ (_ : GetRequest) (_ : Reply GetFields) =>
            .error (.staleRoute "range boundaries moved"))
          [⟨[0], [10], 2⟩] [5] "Node.Get" ⟨[5]⟩ ⟨⟨[]⟩, none⟩).getNodeCalls = 2) := by
  decide

/-- C3 (amended): when the remote call fails — with the stale-routing
classification or any other — the dispatcher performs no eviction and no
retry: exactly one resolution and one remote call are attempted, the range
cache is left unchanged, and the failure is surfaced in the Error field of
the single delivered response (the retry-and-evict policy is an
unimplemented TODO in `sendRPC`). -/
theorem remote_failure_no_eviction_no_retry
    {α φ : Type}
    (resolver : GoKey → Except GoError RpcClient)
    (call : RpcClient → String → α → Reply φ → Except GoError (Reply φ))
    (cache : RangeCache) (key : GoKey) (method : String) (args : α)
    (reply : Reply φ) (node : RpcClient) (e : GoError)
    (hres : resolver key = .ok node)
    (hcall : call node method args reply = .error e) :
    (sendRPCWith resolver call cache key method args reply).evictions = 0 ∧
    (sendRPCWith resolver call cache key method args reply).getNodeCalls = 1 ∧
    (sendRPCWith resolver call cache key method args reply).remoteCalls = 1 ∧
    (sendRPCWith resolver call cache key method args reply).sent =
      [reply.setErr e] ∧
    (sendRPCWith resolver call cache key method args reply).finalCache =
      cache := by
  simp [sendRPCWith, hres, hcall]

/-- C3 (amended), witnessed: a concrete stale-route failure is surfaced on
the first attempt, with no eviction and no second resolution. -/
theorem remote_failure_no_eviction_no_retry_witness :
    (sendRPCWith (fun _ => .ok 3)
        (fun _ _ (_ : PutRequest) (_ : Reply PutFields) =>
          .error (.staleRoute "node does not own key"))
        [⟨[20], [30], 3⟩] [21] "Node.Put" ⟨[21], [1]⟩ ⟨⟨⟩, none⟩).evictions = 0 ∧
    (sendRPCWith (fun _ => .ok 3)
        (fun _ _ (_ : PutRequest) (_ : Reply PutFields) =>
          .error (.staleRoute "node does not own key"))
        [⟨[20], [30], 3⟩] [21] "Node.Put" ⟨[21], [1]⟩ ⟨⟨⟩, none⟩).getNodeCalls = 1 ∧
    (sendRPCWith (fun _ => .ok 3)
        (fun _ _ (_ : PutRequest) (_ : Reply PutFields) =>
          .error (.staleRoute "node does not own key"))
        [⟨[20], [30], 3⟩] [21] "Node.Put" ⟨[21], [1]⟩ ⟨⟨⟩, none⟩).remoteCalls = 1 ∧
    (sendRPCWith (fun _ => .ok 3)
        (fun _ _ (_ : PutRequest) (_ : Reply PutFields) =>
          .error (.staleRoute "node does not own key"))
        [⟨[20], [30], 3⟩] [21] "Node.Put" ⟨[21], [1]⟩ ⟨⟨⟩, none⟩).sent =
      [Reply.setErr (.staleRoute "node does not own key") ⟨⟨⟩, none⟩] ∧
    (sendRPCWith (fun _ => .ok 3)
        (fun _ _ (_ : PutRequest) (_ : Reply PutFields) =>
          .error (.staleRoute "node does not own key"))
        [⟨[20], [30], 3⟩] [21] "Node.Put" ⟨[21], [1]⟩ ⟨⟨⟩, none⟩).finalCache =
      [⟨[20], [30], 3⟩] :=
  remote_failure_no_eviction_no_retry (fun _ => .ok 3)
    (fun _ _ (_ : PutRequest) (_ : Reply PutFields) =>
      .error (.staleRoute "node does not own key"))
    [⟨[20], [30], 3⟩] [21] "Node.Put" ⟨[21], [1]⟩ ⟨⟨⟩, none⟩ 3
    (.staleRoute "node does not own key") rfl rfl

/-- C4: at a concrete DistDB whose range cache holds a descriptor covering
the key — the hit case in which the claim (and the doc comment of `getNode`
itself) says the node of that entry is returned without contacting the Range
Descriptor Store — `getNode` still fails with the unimplemented
node-resolution error: the resolver never consults the cache. -/
theorem getNode_ignores_cache_hit :
    rangeCacheLookup [⟨[0], [10], 7⟩] [3] = some ⟨[0], [10], 7⟩ ∧
    DistDB.getNode ⟨0, [⟨[0], [10], 7⟩]⟩ [3] =
      .error (.errorf "getNode unimplemented") :=
  ⟨by decide, rfl⟩

/-- C5 is false of the source: for a concrete DeleteRange whose interval
spans two cached ranges, the façade issues one dispatch, not one per spanned
range. -/
theorem deleteRange_no_partition_counterexample :
    ¬ ((DistDB.DeleteRange ⟨0, [⟨[0], [5], 1⟩, ⟨[5], [10], 2⟩]⟩
          (fun _ _ _ r => .ok r) ⟨[1], [9]⟩).dispatches.length =
        rangesSpanned [⟨[0], [5], 1⟩, ⟨[5], [10], 2⟩] [1] [9]) := by
  decide

/-- C5 (amended): DeleteRange issues exactly one dispatch, routed by the
StartKey of the request with method Node.DeleteRange, regardless of how many
ranges the interval [StartKey, EndKey) spans, and its channel delivers
exactly one sub-response; the partitioning into per-range sub-intervals and
the aggregation of NumDeleted are an unimplemented TODO in the source. -/
theorem deleteRange_single_dispatch
    (db : DistDB)
    (call : RpcClient → String → DeleteRangeRequest → Reply DeleteRangeFields → Except GoError (Reply DeleteRangeFields))
    (args : DeleteRangeRequest) :
    (db.DeleteRange call args).dispatches = [(args.StartKey, "Node.DeleteRange")] ∧
    deliversOnce (db.DeleteRange call args) :=
  ⟨rfl, rfl⟩

/-- C6 is false of the source: for a concrete Scan spanning two cached
ranges, the returned channel is nil (so no rows are ever delivered, let
alone a concatenation in key order) and no dispatch is issued at all, rather
than one per spanned sub-range. -/
theorem scan_nil_channel_counterexample :
    ¬ (((DistDB.Scan ⟨0, [⟨[0], [5], 1⟩, ⟨[5], [10], 2⟩]⟩
          ⟨[1], [9], 5⟩).chan.isSome = true) ∧
       (DistDB.Scan ⟨0, [⟨[0], [5], 1⟩, ⟨[5], [10], 2⟩]⟩
          ⟨[1], [9], 5⟩).dispatches.length =
         rangesSpanned [⟨[0], [5], 1⟩, ⟨[5], [10], 2⟩] [1] [9]) := by
  decide

/-- C6 (amended): Scan is unimplemented — for every input it issues no
dispatch and returns a nil channel, so no rows (and no error) are ever
delivered and a caller reading the result blocks forever; the partitioning,
concatenation in key order and the maxResults early stop do not exist in the
source. -/
theorem scan_unimplemented_nil_channel (db : DistDB) (args : ScanRequest) :
    (db.Scan args).chan = none ∧ (db.Scan args).dispatches = [] :=
  ⟨rfl, rfl⟩

/-- C7 is false of the source: for a concrete EndTransaction whose keys map
to three distinct cached ranges, the façade issues one commit dispatch, not
one per distinct range. -/
theorem endTransaction_single_dispatch_counterexample :
    ¬ ((DistDB.EndTransaction
          ⟨0, [⟨[0], [5], 1⟩, ⟨[5], [10], 2⟩, ⟨[10], [15], 3⟩]⟩
          (fun _ _ _ r => .ok r) ⟨[[1], [6], [11]]⟩).map
            (fun fr => fr.dispatches.length) =
        some (distinctRanges [⟨[0], [5], 1⟩, ⟨[5], [10], 2⟩, ⟨[10], [15], 3⟩]
          [[1], [6], [11]])) := by
  decide

/-- C7 (amended): EndTransaction issues exactly one commit dispatch, routed
by the first key Keys[0] with method Node.EndTransaction, regardless of how
many distinct ranges the key set touches, and its channel delivers exactly
one response; resolving every key, deduplicating by range and dispatching
per distinct range are an unimplemented TODO (and an empty key slice is an
index-out-of-range panic, modelled by `none`). -/
theorem endTransaction_first_key_dispatch
    (db : DistDB)
    (call : RpcClient → String → EndTransactionRequest → Reply EndTransactionFields → Except GoError (Reply EndTransactionFields))
    (args : EndTransactionRequest) (k : GoKey) (rest : List GoKey)
    (hkeys : args.Keys = k :: rest) :
    (db.EndTransaction call args).map (fun fr => fr.dispatches) =
      some [(k, "Node.EndTransaction")] ∧
    (db.EndTransaction call args).map (fun fr => fr.chan.map List.length) =
      some (some 1) := by
  obtain ⟨keys⟩ := args
  simp only at hkeys
  subst hkeys
  exact ⟨rfl, rfl⟩

/-- C7 (amended), witnessed: a two-key transaction issues the one dispatch
routed by its first key. -/
theorem endTransaction_first_key_dispatch_witness :
    (DistDB.EndTransaction ⟨0, []⟩ (fun _ _ _ r => .ok r) ⟨[[4], [8]]⟩).map
        (fun fr => fr.dispatches) = some [([4], "Node.EndTransaction")] ∧
    (DistDB.EndTransaction ⟨0, []⟩ (fun _ _ _ r => .ok r) ⟨[[4], [8]]⟩).map
        (fun fr => fr.chan.map List.length) = some (some 1) :=
  endTransaction_first_key_dispatch ⟨0, []⟩ (fun _ _ _ r => .ok r)
    ⟨[[4], [8]]⟩ [4] [[8]] rfl

/-- C8 is false of the source: EnqueueUpdate returns a nil channel, so no
value — in particular no Unimplemented error — is ever delivered to the
caller; the operation does not fail immediately, it silently never
responds. -/
theorem enqueueUpdate_silent_counterexample :
    ¬ ((DistDB.EnqueueUpdate ⟨0, []⟩ ⟨⟩).chan.isSome = true) := by
  decide

/-- C8 (amended): EnqueueUpdate attempts no dispatch, as the claim says, but
instead of delivering an Unimplemented error it returns a nil channel: no
error (nor any other value) is ever delivered, and a caller reading the
result blocks forever. -/
theorem enqueueUpdate_nil_channel_no_dispatch
    (db : DistDB) (args : EnqueueUpdateRequest) :
    (db.EnqueueUpdate args).dispatches = [] ∧ (db.EnqueueUpdate args).chan = none :=
  ⟨rfl, rfl⟩

/-- C9: for every input, Scan and EnqueueUpdate return a nil channel
(`chan = none` in the embedding): no value is ever delivered on the returned
channel, so a caller reading the result of either operation blocks forever
instead of receiving a response or an error. -/
theorem scan_enqueueUpdate_nil_channels
    (db : DistDB) (argsS : ScanRequest) (argsE : EnqueueUpdateRequest) :
    (db.Scan argsS).chan = none ∧ (db.EnqueueUpdate argsE).chan = none :=
  ⟨rfl, rfl⟩

/-- C10: when a dispatch fails before or during the remote call, the
background task modifies only the Error field of the pre-allocated reply —
the final reply is exactly the supplied reply with Error populated, so every
other field is unchanged — and the request value is left exactly as the
caller supplied it. -/
theorem failure_frame_only_error_field
    {α φ : Type}
    (resolver : GoKey → Except GoError RpcClient)
    (call : RpcClient → String → α → Reply φ → Except GoError (Reply φ))
    (cache : RangeCache) (key : GoKey) (method : String) (args : α)
    (reply : Reply φ) (e : GoError)
    (h : dispatchErr resolver call key method args reply = some e) :
    (sendRPCWith resolver call cache key method args reply).finalReply =
      reply.setErr e ∧
    (sendRPCWith resolver call cache key method args reply).finalReply.fields =
      reply.fields ∧
    (sendRPCWith resolver call cache key method args reply).finalArgs = args := by
  unfold dispatchErr at h
  split at h
  · rename_i e1 heq
    simp only [Option.some.injEq] at h
    subst h
    simp [sendRPCWith, heq, Reply.setErr]
  · rename_i node heq
    split at h
    · simp at h
    · rename_i e1 heq2
      simp only [Option.some.injEq] at h
      subst h
      simp [sendRPCWith, heq, heq2, Reply.setErr]

/-- C10, witnessed: a concrete remote-call failure leaves the result fields
of the reply and the whole request unchanged, setting only Error. -/
theorem failure_frame_only_error_field_witness :
    (sendRPCWith (fun _ => .ok 4)
        (fun _ _ (_ : IncrementRequest) (_ : Reply IncrementFields) =>
          .error (.errorf "connection refused"))
        [] [9] "Node.Increment" ⟨[9], 5⟩ ⟨⟨0⟩, none⟩).finalReply =
      Reply.setErr (.errorf "connection refused") ⟨⟨0⟩, none⟩ ∧
    (sendRPCWith (fun _ => .ok 4)
        (fun _ _ (_ : IncrementRequest) (_ : Reply IncrementFields) =>
          .error (.errorf "connection refused"))
        [] [9] "Node.Increment" ⟨[9], 5⟩ ⟨⟨0⟩, none⟩).finalReply.fields =
      Reply.fields ⟨⟨0⟩, none⟩ ∧
    (sendRPCWith (fun _ => .ok 4)
        (fun _ _ (_ : IncrementRequest) (_ : Reply IncrementFields) =>
          .error (.errorf "connection refused"))
        [] [9] "Node.Increment" ⟨[9], 5⟩ ⟨⟨0⟩, none⟩).finalArgs = ⟨[9], 5⟩ :=
  failure_frame_only_error_field (fun _ => .ok 4)
    (fun _ _ (_ : IncrementRequest) (_ : Reply IncrementFields) =>
      .error (.errorf "connection refused"))
    [] [9] "Node.Increment" ⟨[9], 5⟩ ⟨⟨0⟩, none⟩ (.errorf "connection refused")
    (by decide)

end KV
